import Mathlib

/-!
Verification of the Solscan MCP server (src/server.py): the tool catalog
(handle_list_tools) and the dispatcher (handle_call_tool) with its request
helper (make_solscan_request).  The upstream network is modelled as an oracle
from URL strings to outcomes; JSON payloads are modelled by an inductive type
(numbers restricted to integers, which the claims never exceed), and the
Python str() rendering of decoded JSON is modelled by pyStr.  A dispatcher
call is modelled as the returned content (or raised error) together with the
list of upstream URLs actually requested.
-/

namespace Solscan

/-- A decoded JSON value, as produced by response.json() in server.py. -/
inductive Json where
  | null : Json
  | bool : Bool → Json
  | num : Int → Json
  | str : String → Json
  | arr : List Json → Json
  | obj : List (String × Json) → Json

/-- A Python value supplied as a tool argument (the schemas declare only
string and integer parameters). -/
inductive PyVal where
  | vStr : String → PyVal
  | vInt : Int → PyVal
deriving DecidableEq

/-- Python str() of an argument value, as interpolated into an f-string URL. -/
def PyVal.str : PyVal → String
  | .vStr s => s
  | .vInt n => toString n

/-- Python truthiness of a decoded JSON value: what `if not data` tests in
server.py.  None, False, 0, empty string, empty list and empty dict are
falsy; everything else is truthy. -/
def pyTruthy : Json → Bool
  | .null => false
  | .bool b => b
  | .num n => n != 0
  | .str s => !(s == "")
  | .arr xs => !xs.isEmpty
  | .obj kvs => !kvs.isEmpty

mutual
/-- Python str() of a decoded JSON value (dict/list repr with single-quoted
strings, True/False/None), as applied by the str(...) calls in server.py. -/
def pyStr : Json → String
  | .null => "None"
  | .bool b => if b then "True" else "False"
  | .num n => toString n
  | .str s => "\x27" ++ s ++ "\x27"
  | .arr xs => "[" ++ pyStrElems xs ++ "]"
  | .obj kvs => "\x7b" ++ pyStrFields kvs ++ "\x7d"

/-- Comma-separated rendering of the elements of a JSON array. -/
def pyStrElems : List Json → String
  | [] => ""
  | [x] => pyStr x
  | x :: y :: xs => pyStr x ++ ", " ++ pyStrElems (y :: xs)

/-- Comma-separated rendering of the key/value pairs of a JSON object. -/
def pyStrFields : List (String × Json) → String
  | [] => ""
  | [kv] => "\x27" ++ kv.1 ++ "\x27: " ++ pyStr kv.2
  | kv :: y :: xs => "\x27" ++ kv.1 ++ "\x27: " ++ pyStr kv.2 ++ ", " ++ pyStrFields (y :: xs)
end

/-- What one upstream GET does for a given URL: either a 2xx response with a
decoded JSON body, or any failure (timeout, non-2xx status via
raise_for_status, malformed body in response.json()), carrying the exception
message. -/
inductive NetOutcome where
  | success : Json → NetOutcome
  | failure : String → NetOutcome

/-- make_solscan_request of server.py, over a network oracle: on success it
returns the decoded body; every exception is caught and turned into the dict
containing the single key error mapped to the message. -/
def make_solscan_request (fetch : String → NetOutcome) (url : String) : Json :=
  match fetch url with
  | .success j => j
  | .failure e => Json.obj [("error", Json.str e)]

/-- One content item of a tool response (list[TextContent | ImageContent |
EmbeddedResource] in server.py; the dispatcher only ever builds TextContent). -/
inductive Content where
  | text : String → Content
  | image : String → String → Content
  | embeddedResource : String → Content
deriving DecidableEq

/-- How a call to the dispatcher ends: a returned list of content items, or a
raised exception. -/
inductive CallResult where
  | response : List Content → CallResult
  | raised : String → CallResult
deriving DecidableEq

/-- A dispatcher call paired with the upstream URLs it actually requested. -/
structure CallOutcome where
  result : CallResult
  requests : List String
deriving DecidableEq

/-- API_BASE of server.py. -/
def API_BASE : String := "pro-api.solscan.io"

/-- Lookup of a key in the (possibly absent) argument mapping: none when
arguments is None or lacks the key, mirroring
`if not arguments or "address" not in arguments`. -/
def getArg (arguments : Option (List (String × PyVal))) (k : String) : Option PyVal :=
  arguments.bind (fun d => d.lookup k)

/-- arguments.get(k, dflt), also covering the `... if arguments else dflt`
pattern used when arguments may be None. -/
def argGetD (arguments : Option (List (String × PyVal))) (k : String) (dflt : PyVal) : PyVal :=
  match getArg arguments k with
  | some v => v
  | none => dflt

/-- The shared tail of every network-reaching branch of handle_call_tool:
issue the GET through make_solscan_request, then return the tool-specific
failure text when the payload is falsy, else str(payload); exactly one URL is
requested either way. -/
def fetchWrap (fetch : String → NetOutcome) (url failMsg : String) : CallOutcome :=
  let data := make_solscan_request fetch url
  ⟨if pyTruthy data then CallResult.response [Content.text (pyStr data)]
   else CallResult.response [Content.text failMsg], [url]⟩

/-- handle_call_tool of server.py: the name-dispatch chain, per-tool address
validation, URL construction with defaults, and the unknown-name ValueError. -/
def handle_call_tool (fetch : String → NetOutcome) (name : String)
    (arguments : Option (List (String × PyVal))) : CallOutcome :=
  if name = "get-sol-token-price" then
    match getArg arguments "address" with
    | none => ⟨CallResult.response [Content.text "Address parameter is required"], []⟩
    | some address =>
        fetchWrap fetch ("https://" ++ API_BASE ++ "/v2.0/token/price?address=" ++ address.str)
          "Failed to retrieve token price data"
  else if name = "list-sol-tokens" then
    let page := argGetD arguments "page" (PyVal.vInt 1)
    let page_size := argGetD arguments "page_size" (PyVal.vInt 10)
    fetchWrap fetch
      ("https://" ++ API_BASE ++ "/v2.0/token/list?page=" ++ page.str ++ "&page_size=" ++
        page_size.str)
      "Failed to retrieve token list data"
  else if name = "get-token-market" then
    match getArg arguments "address" with
    | none => ⟨CallResult.response [Content.text "Address parameter is required"], []⟩
    | some address =>
        fetchWrap fetch ("https://" ++ API_BASE ++ "/v2.0/token/market?address=" ++ address.str)
          "Failed to retrieve token market data"
  else if name = "get-latest-blocks" then
    let limit := argGetD arguments "limit" (PyVal.vInt 10)
    fetchWrap fetch ("https://" ++ API_BASE ++ "/v2.0/block/last?limit=" ++ limit.str)
      "Failed to retrieve latest blocks data"
  else if name = "get-account-info" then
    match getArg arguments "address" with
    | none => ⟨CallResult.response [Content.text "Address parameter is required"], []⟩
    | some address =>
        let page := argGetD arguments "page" (PyVal.vInt 1)
        let page_size := argGetD arguments "page_size" (PyVal.vInt 10)
        fetchWrap fetch
          ("https://" ++ API_BASE ++ "/v2.0/account/token-accounts?address=" ++ address.str ++
            "&type=token&page=" ++ page.str ++ "&page_size=" ++ page_size.str)
          "Failed to retrieve account tokens data"
  else if name = "get-account-activities" then
    match getArg arguments "address" with
    | none => ⟨CallResult.response [Content.text "Address parameter is required"], []⟩
    | some address =>
        let page := argGetD arguments "page" (PyVal.vInt 1)
        let page_size := argGetD arguments "page_size" (PyVal.vInt 10)
        let sort_by := argGetD arguments "sort_by" (PyVal.vStr "block_time")
        let sort_order := argGetD arguments "sort_order" (PyVal.vStr "desc")
        fetchWrap fetch
          ("https://" ++ API_BASE ++ "/v2.0/account/defi/activities" ++ "?address=" ++
            address.str ++ "&page=" ++ page.str ++ "&page_size=" ++ page_size.str ++
            "&sort_by=" ++ sort_by.str ++ "&sort_order=" ++ sort_order.str)
          "Failed to retrieve account activities data"
  else if name = "get-token-info" then
    match getArg arguments "address" with
    | none => ⟨CallResult.response [Content.text "Address parameter is required"], []⟩
    | some address =>
        fetchWrap fetch ("https://" ++ API_BASE ++ "/v2.0/token/meta?address=" ++ address.str)
          "Failed to retrieve token metadata"
  else ⟨CallResult.raised ("Unknown tool: " ++ name), []⟩

/-- A tool descriptor as returned by handle_list_tools: name, description and
the JSON-Schema-shaped input contract, which is itself a JSON value. -/
structure Tool where
  name : String
  description : String
  inputSchema : Json

/-- handle_list_tools of server.py: the five active tool descriptors with
their exact schemas (the commented-out descriptors, among them list-sol-tokens
and get-token-market, are absent). -/
def handle_list_tools : List Tool :=
  [ ⟨"get-sol-token-price", "Get sonala price information from Solscan",
      Json.obj
        [("type", Json.str "object"),
         ("properties", Json.obj
           [("address", Json.obj
             [("type", Json.str "string"),
              ("description", Json.str "Token address on Solana blockchain")])]),
         ("required", Json.arr [Json.str "address"])]⟩,
    ⟨"get-latest-blocks", "Get sonala latest blocks information from Solscan",
      Json.obj
        [("type", Json.str "object"),
         ("properties", Json.obj
           [("limit", Json.obj
             [("type", Json.str "integer"),
              ("description", Json.str "Number of latest blocks to return"),
              ("default", Json.num 10),
              ("minimum", Json.num 1),
              ("maximum", Json.num 100)])]),
         ("required", Json.arr [])]⟩,
    ⟨"get-account-info", "Get sonala accounts information for a Solana address",
      Json.obj
        [("type", Json.str "object"),
         ("properties", Json.obj
           [("address", Json.obj
             [("type", Json.str "string"),
              ("description", Json.str "Solana account address")]),
            ("page", Json.obj
             [("type", Json.str "integer"),
              ("description", Json.str "Page number (1)"),
              ("default", Json.num 1),
              ("minimum", Json.num 1)]),
            ("page_size", Json.obj
             [("type", Json.str "integer"),
              ("description", Json.str "Number of items per page"),
              ("default", Json.num 10),
              ("minimum", Json.num 1),
              ("maximum", Json.num 100)])]),
         ("required", Json.arr [Json.str "address"])]⟩,
    ⟨"get-account-activities", "Get DeFi activities for a Solana address",
      Json.obj
        [("type", Json.str "object"),
         ("properties", Json.obj
           [("address", Json.obj
             [("type", Json.str "string"),
              ("description", Json.str "Solana account address")]),
            ("page", Json.obj
             [("type", Json.str "integer"),
              ("description", Json.str "Page number (1-based)"),
              ("default", Json.num 1),
              ("minimum", Json.num 1)]),
            ("page_size", Json.obj
             [("type", Json.str "integer"),
              ("description", Json.str "Number of items per page"),
              ("default", Json.num 10),
              ("minimum", Json.num 1),
              ("maximum", Json.num 100)]),
            ("sort_by", Json.obj
             [("type", Json.str "string"),
              ("description", Json.str "Field to sort by"),
              ("default", Json.str "block_time"),
              ("enum", Json.arr [Json.str "block_time"])]),
            ("sort_order", Json.obj
             [("type", Json.str "string"),
              ("description", Json.str "Sort order (asc or desc)"),
              ("default", Json.str "desc"),
              ("enum", Json.arr [Json.str "asc", Json.str "desc"])])]),
         ("required", Json.arr [Json.str "address"])]⟩,
    ⟨"get-token-info", "Get  CA address detailed token metadata  information from Solscan",
      Json.obj
        [("type", Json.str "object"),
         ("properties", Json.obj
           [("address", Json.obj
             [("type", Json.str "string"),
              ("description", Json.str "Token address on Solana blockchain")])]),
         ("required", Json.arr [Json.str "address"])]⟩ ]

/-- The names of the tools the catalog advertises. -/
def registeredToolNames : List String := handle_list_tools.map Tool.name

/-- Whether a call result is a returned response consisting of exactly one
content item, that item being a text item. -/
def isSingleText : CallResult → Bool
  | CallResult.response [Content.text _] => true
  | _ => false

/-- C1: for each catalog tool requiring address (get-sol-token-price,
get-account-info, get-account-activities, get-token-info), a call whose
argument mapping is absent or lacks the key address returns the single text
item "Address parameter is required" and requests no upstream URL. -/
theorem address_required_of_missing (fetch : String → NetOutcome)
    (args : Option (List (String × PyVal))) (h : getArg args "address" = none) :
    handle_call_tool fetch "get-sol-token-price" args =
      ⟨CallResult.response [Content.text "Address parameter is required"], []⟩ ∧
    handle_call_tool fetch "get-account-info" args =
      ⟨CallResult.response [Content.text "Address parameter is required"], []⟩ ∧
    handle_call_tool fetch "get-account-activities" args =
      ⟨CallResult.response [Content.text "Address parameter is required"], []⟩ ∧
    handle_call_tool fetch "get-token-info" args =
      ⟨CallResult.response [Content.text "Address parameter is required"], []⟩ := by
  refine ⟨?_, ?_, ?_, ?_⟩ <;> simp [handle_call_tool, h]

/-- Witness for C1 at the absent argument mapping. -/
theorem address_required_of_missing_witness :
    getArg none "address" = none ∧
    handle_call_tool (fun _ => NetOutcome.failure "e") "get-sol-token-price" none =
      ⟨CallResult.response [Content.text "Address parameter is required"], []⟩ :=
  ⟨rfl, (address_required_of_missing (fun _ => NetOutcome.failure "e") none rfl).1⟩

/-- C5: get-account-activities called with only address (here the literal
"X") requests exactly the URL whose query carries
page=1, page_size=10, sort_by=block_time, sort_order=desc in that order,
right after the address parameter. -/
theorem activities_default_query (fetch : String → NetOutcome) :
    (handle_call_tool fetch "get-account-activities"
        (some [("address", PyVal.vStr "X")])).requests =
      ["https://pro-api.solscan.io/v2.0/account/defi/activities?address=X&page=1&page_size=10&sort_by=block_time&sort_order=desc"] :=
  rfl

/-- C6: get-latest-blocks called with absent arguments, or with an empty
argument mapping, requests exactly the URL whose query is limit=10. -/
theorem latest_blocks_default_limit (fetch : String → NetOutcome) :
    (handle_call_tool fetch "get-latest-blocks" none).requests =
      ["https://pro-api.solscan.io/v2.0/block/last?limit=10"] ∧
    (handle_call_tool fetch "get-latest-blocks" (some [])).requests =
      ["https://pro-api.solscan.io/v2.0/block/last?limit=10"] :=
  ⟨rfl, rfl⟩

/-- C7: every supplied optional value (limit, page, page_size, sort_by,
sort_order), arbitrary and hence including out-of-range or out-of-enum
values, is interpolated into the requested URL verbatim (its Python string
form), with no clamping or rejection. -/
theorem optional_params_verbatim (fetch : String → NetOutcome) (a v p s b o : PyVal) :
    (handle_call_tool fetch "get-latest-blocks" (some [("limit", v)])).requests =
      ["https://" ++ API_BASE ++ "/v2.0/block/last?limit=" ++ v.str] ∧
    (handle_call_tool fetch "get-account-info"
        (some [("address", a), ("page", p), ("page_size", s)])).requests =
      ["https://" ++ API_BASE ++ "/v2.0/account/token-accounts?address=" ++ a.str ++
        "&type=token&page=" ++ p.str ++ "&page_size=" ++ s.str] ∧
    (handle_call_tool fetch "get-account-activities"
        (some [("address", a), ("page", p), ("page_size", s), ("sort_by", b),
          ("sort_order", o)])).requests =
      ["https://" ++ API_BASE ++ "/v2.0/account/defi/activities" ++ "?address=" ++
        a.str ++ "&page=" ++ p.str ++ "&page_size=" ++ s.str ++
        "&sort_by=" ++ b.str ++ "&sort_order=" ++ o.str] :=
  ⟨rfl, rfl, rfl⟩

/-- C10: whenever get-account-info is called with an argument mapping whose
address key is present, the requested URL carries the fixed parameter
type=token between the address parameter and the page parameter, whatever
the remaining arguments are. -/
theorem account_info_type_token (fetch : String → NetOutcome)
    (d : List (String × PyVal)) (a : PyVal) (h : d.lookup "address" = some a) :
    (handle_call_tool fetch "get-account-info" (some d)).requests =
      ["https://" ++ API_BASE ++ "/v2.0/account/token-accounts?address=" ++ a.str ++
        "&type=token&page=" ++ (argGetD (some d) "page" (PyVal.vInt 1)).str ++
        "&page_size=" ++ (argGetD (some d) "page_size" (PyVal.vInt 10)).str] := by
  simp [handle_call_tool, getArg, h, fetchWrap]

/-- Witness for C10 at a mapping holding only the address. -/
theorem account_info_type_token_witness :
    ([("address", PyVal.vStr "X")] : List (String × PyVal)).lookup "address" =
      some (PyVal.vStr "X") ∧
    (handle_call_tool (fun _ => NetOutcome.failure "e") "get-account-info"
        (some [("address", PyVal.vStr "X")])).requests =
      ["https://" ++ API_BASE ++ "/v2.0/account/token-accounts?address=" ++
        (PyVal.vStr "X").str ++ "&type=token&page=" ++
        (argGetD (some [("address", PyVal.vStr "X")]) "page" (PyVal.vInt 1)).str ++
        "&page_size=" ++
        (argGetD (some [("address", PyVal.vStr "X")]) "page_size" (PyVal.vInt 10)).str] :=
  ⟨rfl, account_info_type_token (fun _ => NetOutcome.failure "e")
    [("address", PyVal.vStr "X")] (PyVal.vStr "X") rfl⟩

/-- C2 counterexample: list-sol-tokens is absent from the catalog returned by
handle_list_tools, yet calling it does not raise: it requests the token-list
URL and produces a text response. -/
theorem unregistered_name_text_response_cex :
    ¬ ("list-sol-tokens" ∈ registeredToolNames) ∧
    handle_call_tool (fun _ => NetOutcome.success (Json.obj [("data", Json.num 1)]))
        "list-sol-tokens" none =
      ⟨CallResult.response [Content.text (pyStr (Json.obj [("data", Json.num 1)]))],
        ["https://pro-api.solscan.io/v2.0/token/list?page=1&page_size=10"]⟩ :=
  ⟨by decide, rfl⟩

/-- C2 (amended): a tool name outside the catalog, other than the two leftover
handled names list-sol-tokens and get-token-market, makes the dispatcher raise
the unknown-tool error without requesting anything: it never produces a text
response. -/
theorem unknown_tool_raised (fetch : String → NetOutcome) (name : String)
    (args : Option (List (String × PyVal))) (h : ¬ name ∈ registeredToolNames)
    (h1 : name ≠ "list-sol-tokens") (h2 : name ≠ "get-token-market") :
    handle_call_tool fetch name args =
      ⟨CallResult.raised ("Unknown tool: " ++ name), []⟩ := by
  simp [registeredToolNames, handle_list_tools] at h
  obtain ⟨n1, n2, n3, n4, n5⟩ := h
  simp [handle_call_tool, n1, n2, n3, n4, n5, h1, h2]

/-- Witness for C2 at a fresh name. -/
theorem unknown_tool_raised_witness :
    ¬ ("no-such-tool" ∈ registeredToolNames) ∧
    handle_call_tool (fun _ => NetOutcome.failure "e") "no-such-tool" none =
      ⟨CallResult.raised ("Unknown tool: " ++ "no-such-tool"), []⟩ :=
  ⟨by decide, unknown_tool_raised (fun _ => NetOutcome.failure "e") "no-such-tool" none
    (by decide) (by decide) (by decide)⟩

/-- C3 counterexample: when the mocked upstream echoes back the empty JSON
object, get-sol-token-price with a valid address returns the failure text, not
the object's string serialization. -/
theorem roundtrip_cex :
    handle_call_tool (fun _ => NetOutcome.success (Json.obj [])) "get-sol-token-price"
        (some [("address", PyVal.vStr "X")]) =
      ⟨CallResult.response [Content.text "Failed to retrieve token price data"],
        ["https://pro-api.solscan.io/v2.0/token/price?address=X"]⟩ ∧
    CallResult.response [Content.text "Failed to retrieve token price data"] ≠
      CallResult.response [Content.text (pyStr (Json.obj []))] := by
  constructor
  · rfl
  · have h : pyStr (Json.obj []) = "\x7b\x7d" := by unfold pyStr pyStrFields; rfl
    rw [h]; decide

/-- C3 (amended): when the mocked upstream echoes back a fixed truthy JSON
value, every data-returning catalog tool called with valid required arguments
returns a single text item exactly equal to that value's string
serialization. -/
theorem roundtrip_truthy (j : Json) (h : pyTruthy j = true) (a : PyVal) :
    (handle_call_tool (fun _ => NetOutcome.success j) "get-sol-token-price"
        (some [("address", a)])).result = CallResult.response [Content.text (pyStr j)] ∧
    (handle_call_tool (fun _ => NetOutcome.success j) "get-latest-blocks"
        (some [("address", a)])).result = CallResult.response [Content.text (pyStr j)] ∧
    (handle_call_tool (fun _ => NetOutcome.success j) "get-account-info"
        (some [("address", a)])).result = CallResult.response [Content.text (pyStr j)] ∧
    (handle_call_tool (fun _ => NetOutcome.success j) "get-account-activities"
        (some [("address", a)])).result = CallResult.response [Content.text (pyStr j)] ∧
    (handle_call_tool (fun _ => NetOutcome.success j) "get-token-info"
        (some [("address", a)])).result = CallResult.response [Content.text (pyStr j)] := by
  refine ⟨?_, ?_, ?_, ?_, ?_⟩ <;>
    simp [handle_call_tool, getArg, List.lookup, fetchWrap, make_solscan_request, h]

/-- Witness for C3 at a one-field object. -/
theorem roundtrip_truthy_witness :
    pyTruthy (Json.obj [("price", Json.num 7)]) = true ∧
    (handle_call_tool (fun _ => NetOutcome.success (Json.obj [("price", Json.num 7)]))
        "get-sol-token-price" (some [("address", PyVal.vStr "X")])).result =
      CallResult.response [Content.text (pyStr (Json.obj [("price", Json.num 7)]))] :=
  ⟨by decide,
    (roundtrip_truthy (Json.obj [("price", Json.num 7)]) (by decide) (PyVal.vStr "X")).1⟩

/-- C4: when the upstream GET fails in any way (the oracle yields a failure
with message e), every catalog tool called with valid required arguments
still returns a response, a single text item equal to the string form of the
error map built from e; nothing is raised. -/
theorem upstream_failure_error_text (e : String) (a : PyVal) :
    (handle_call_tool (fun _ => NetOutcome.failure e) "get-sol-token-price"
        (some [("address", a)])).result =
      CallResult.response [Content.text (pyStr (Json.obj [("error", Json.str e)]))] ∧
    (handle_call_tool (fun _ => NetOutcome.failure e) "get-latest-blocks"
        (some [("address", a)])).result =
      CallResult.response [Content.text (pyStr (Json.obj [("error", Json.str e)]))] ∧
    (handle_call_tool (fun _ => NetOutcome.failure e) "get-account-info"
        (some [("address", a)])).result =
      CallResult.response [Content.text (pyStr (Json.obj [("error", Json.str e)]))] ∧
    (handle_call_tool (fun _ => NetOutcome.failure e) "get-account-activities"
        (some [("address", a)])).result =
      CallResult.response [Content.text (pyStr (Json.obj [("error", Json.str e)]))] ∧
    (handle_call_tool (fun _ => NetOutcome.failure e) "get-token-info"
        (some [("address", a)])).result =
      CallResult.response [Content.text (pyStr (Json.obj [("error", Json.str e)]))] :=
  ⟨rfl, rfl, rfl, rfl, rfl⟩

/-- The result of the shared fetch-and-wrap tail is always a single text
item, whichever way the payload truthiness goes. -/
theorem isSingleText_fetchWrap (f : String → NetOutcome) (u m : String) :
    isSingleText (fetchWrap f u m).result = true := by
  cases h : pyTruthy (make_solscan_request f u) <;> simp [fetchWrap, isSingleText, h]

/-- A validation response is also a single text item. -/
theorem isSingleText_validation (s : String) :
    isSingleText (CallResult.response [Content.text s]) = true :=
  rfl

/-- C8: every call to a catalog tool, with any argument mapping or none at
all and any upstream behaviour, returns a response of exactly one content
item, and that item is a text item. -/
theorem single_text_item (fetch : String → NetOutcome)
    (args : Option (List (String × PyVal))) :
    isSingleText (handle_call_tool fetch "get-sol-token-price" args).result = true ∧
    isSingleText (handle_call_tool fetch "get-latest-blocks" args).result = true ∧
    isSingleText (handle_call_tool fetch "get-account-info" args).result = true ∧
    isSingleText (handle_call_tool fetch "get-account-activities" args).result = true ∧
    isSingleText (handle_call_tool fetch "get-token-info" args).result = true := by
  refine ⟨?_, ?_, ?_, ?_, ?_⟩ <;>
    cases h : getArg args "address" <;>
      simp [handle_call_tool, h, isSingleText_validation, isSingleText_fetchWrap]

/-- C9: when the upstream GET succeeds but the decoded body is a falsy JSON
value (empty object, empty array, null, 0, false or the empty string), every
catalog tool returns its tool-specific failure text instead of the payload's
serialization. -/
theorem falsy_payload_failure_text (j : Json) (h : pyTruthy j = false) (a : PyVal) :
    (handle_call_tool (fun _ => NetOutcome.success j) "get-sol-token-price"
        (some [("address", a)])).result =
      CallResult.response [Content.text "Failed to retrieve token price data"] ∧
    (handle_call_tool (fun _ => NetOutcome.success j) "get-latest-blocks"
        (some [("address", a)])).result =
      CallResult.response [Content.text "Failed to retrieve latest blocks data"] ∧
    (handle_call_tool (fun _ => NetOutcome.success j) "get-account-info"
        (some [("address", a)])).result =
      CallResult.response [Content.text "Failed to retrieve account tokens data"] ∧
    (handle_call_tool (fun _ => NetOutcome.success j) "get-account-activities"
        (some [("address", a)])).result =
      CallResult.response [Content.text "Failed to retrieve account activities data"] ∧
    (handle_call_tool (fun _ => NetOutcome.success j) "get-token-info"
        (some [("address", a)])).result =
      CallResult.response [Content.text "Failed to retrieve token metadata"] := by
  refine ⟨?_, ?_, ?_, ?_, ?_⟩ <;>
    simp [handle_call_tool, getArg, List.lookup, fetchWrap, make_solscan_request, h]

/-- Witness for C9 at the empty JSON object. -/
theorem falsy_payload_failure_text_witness :
    pyTruthy (Json.obj []) = false ∧
    (handle_call_tool (fun _ => NetOutcome.success (Json.obj [])) "get-latest-blocks"
        (some [("address", PyVal.vStr "X")])).result =
      CallResult.response [Content.text "Failed to retrieve latest blocks data"] :=
  ⟨by decide, (falsy_payload_failure_text (Json.obj []) (by decide) (PyVal.vStr "X")).2.1⟩

end Solscan
